import Mathlib

/-!
Shallow embedding of the task CRUD API in `src/app/main.py` (FastAPI + MySQL).

The HTTP handlers (`create_task`, `read_tasks`, `read_task`, `update_task`,
`delete_task`) and the pydantic request model (`TaskBase`/`TaskCreate`) are
translated directly from the source.  The storage layer
(`app.database.connection`, holding `get_db_connection` and the schema
initializer) is not part of the sources, so its behaviour — timestamp
defaults, the nullable `completed` column, and the driver row count — is
modelled from the specification, as noted on each definition.

Conventions of the embedding:
  - the database is a list of rows plus the AUTO_INCREMENT counter;
  - time is a natural-number clock `t` passed to mutating handlers;
  - `connOk : Bool` says whether `get_db_connection()` returned a live
    connection (`if not conn: raise HTTPException(500, ...)`);
  - `Fault` is the driver fault model: `some (k, m)` means the k-th driver
    call inside the try block raises `mysql.connector.Error` with message
    `m`, and earlier calls succeed.  Call 0 is `conn.cursor(...)`, the
    first statement of every try block and itself a driver call that can
    raise; calls 1.. are the SQL statements (`execute`, `commit`, and the
    re-read `execute`) in source order.  Since Python aborts the try block
    at the first raise, a single first-failure point covers every
    observable driver behaviour;
  - an `HResult` records the HTTP response, the persisted database after
    the request, and whether a connection was acquired and closed
    (the `finally: cursor.close(); conn.close()` block).
-/

namespace TaskApi

/-- Embeds the pydantic model `TaskBase`/`TaskCreate` (src/app/main.py lines
10-17) after validation: `title: str`, `description: Optional[str] = None`,
`completed: Optional[bool] = False`.  `completed = none` is the state after a
body carrying an explicit JSON `null` for `completed`. -/
structure TaskCreate where
  title : String
  description : Option String
  completed : Option Bool
deriving DecidableEq

/-- Embeds one row of the `tasks` table, which is also the response model
`Task` (src/app/main.py lines 20-26): id, title, description, completed,
created_at, updated_at.  Timestamps are a natural-number clock.
Modelled from the spec: the persisted schema is
`tasks(id PK auto-increment, title NOT NULL, description NULLABLE, completed
BOOL default false, created_at, updated_at)` — the `completed` column carries
no NOT NULL constraint, so it is nullable and is embedded as `Option Bool`. -/
structure Row where
  id : Nat
  title : String
  description : Option String
  completed : Option Bool
  created_at : Nat
  updated_at : Nat
deriving DecidableEq

/-- The database: the rows of the `tasks` table in insertion order, plus the
next AUTO_INCREMENT id. -/
structure DB where
  rows : List Row
  nextId : Nat
deriving DecidableEq

/-- Well-formedness of a database reachable through the API: every stored id
is below the AUTO_INCREMENT counter. -/
def DB.WF (db : DB) : Prop := ∀ r ∈ db.rows, r.id < db.nextId

instance (db : DB) : Decidable db.WF := by
  unfold DB.WF; infer_instance

/-- An HTTP response: 200 with a JSON body, or an `HTTPException` with a
status code and a detail string. -/
inductive Resp (α : Type) where
  | ok (body : α)
  | err (status : Nat) (detail : String)
deriving DecidableEq

/-- Driver fault model: `some (k, m)` makes the k-th driver call inside the
try block raise `mysql.connector.Error` with message `m`; `none` is a fault
free run. -/
abbrev Fault := Option (Nat × String)

/-- Result of one handler invocation: the response, the database persisted
after the request, and whether a connection was acquired and closed. -/
structure HResult (α : Type) where
  resp : Resp α
  db : DB
  acquired : Bool
  closed : Bool
deriving DecidableEq

/-- Embeds the `if not conn: raise HTTPException(status_code=500,
detail="Database connection failed")` prologue shared by every handler: the
exception is raised before the try block, so no connection is acquired and
none is closed. -/
def connFail {α : Type} (db : DB) : HResult α :=
  ⟨Resp.err 500 ("Database connection failed"), db, false, false⟩

/-- Embeds the `try ... except Error as e: raise HTTPException(500, str(e))
... finally: cursor.close(); conn.close()` frame on the paths where
`cursor = conn.cursor(...)` succeeded: whatever the body then produces (a
return value, a 404, or a caught driver error turned into a 500), the
finally block closes the cursor and the connection on that exit path
(closing an open cursor does not raise). -/
def withConn {α : Type} (body : Resp α × DB) : HResult α :=
  ⟨body.1, body.2, true, true⟩

/-- Answers whether the fault hits driver call 0, `conn.cursor(...)` — the
first statement inside every try block. -/
def cursorFaults : Fault → Bool
  | some (k, _) => k == 0
  | none => false

/-- Embeds the exit path where `conn.cursor(...)` itself raises `Error`:
the except clause turns it into an HTTPException(500, str(e)), but the
finally block then evaluates `cursor.close()` with the local `cursor` never
assigned, so the resulting UnboundLocalError replaces the response with the
framework generic 500 and `conn.close()` on the next line is never reached
— the acquired connection is not closed. -/
def cursorFail {α : Type} (db : DB) : HResult α :=
  ⟨Resp.err 500 ("Internal Server Error"), db, true, false⟩

/-- Driver error mapped by `except Error as e` to a 500 whose detail echoes
the driver message. -/
def driverErr {α : Type} (m : String) (db : DB) : Resp α × DB :=
  (Resp.err 500 m, db)

/-- The row written by the INSERT of `create_task`: the AUTO_INCREMENT id,
the validated body fields, and both timestamps set to the insertion time.
Modelled from the spec: the schema initializer (absent from src/) defaults
`created_at` and `updated_at` to the insertion time `t`. -/
def newRow (db : DB) (task : TaskCreate) (t : Nat) : Row :=
  { id := db.nextId, title := task.title, description := task.description,
    completed := task.completed, created_at := t, updated_at := t }

/-- Embeds `create_task` (src/app/main.py lines 111-133, POST /tasks/).
Driver calls: 0 = conn.cursor, 1 = execute INSERT, 2 = commit, 3 = execute
SELECT on lastrowid.
Modelled from the spec: `cursor.lastrowid` is the AUTO_INCREMENT id assigned
to the inserted row. -/
def create_task (connOk : Bool) (fault : Fault) (db : DB) (task : TaskCreate)
    (t : Nat) : HResult Row :=
  if !connOk then connFail db else
  if cursorFaults fault then cursorFail db else
  withConn (
    let pending : DB := ⟨db.rows ++ [newRow db task t], db.nextId + 1⟩
    let reread : Resp Row × DB :=
      match pending.rows.find? (fun r => r.id == db.nextId) with
      | some row => (Resp.ok row, pending)
      | none => (Resp.err 500 ("Response validation failed"), pending)
    match fault with
    | some (k, m) =>
        if k == 1 then driverErr m db
        else if k == 2 then driverErr m db
        else if k == 3 then driverErr m pending
        else reread
    | none => reread)

/-- Embeds `read_tasks` (src/app/main.py lines 136-151, GET /tasks/).
Driver calls: 0 = conn.cursor, 1 = execute SELECT *. -/
def read_tasks (connOk : Bool) (fault : Fault) (db : DB) : HResult (List Row) :=
  if !connOk then connFail db else
  if cursorFaults fault then cursorFail db else
  withConn (
    match fault with
    | some (k, m) => if k == 1 then driverErr m db else (Resp.ok db.rows, db)
    | none => (Resp.ok db.rows, db))

/-- Embeds `read_task` (src/app/main.py lines 154-171, GET /tasks/{id}).
Driver calls: 0 = conn.cursor, 1 = execute SELECT by id; `fetchone`
returning `None` raises HTTPException 404 inside the try block (it is not a
driver `Error`, so it propagates through the except clause). -/
def read_task (connOk : Bool) (fault : Fault) (db : DB) (task_id : Nat) :
    HResult Row :=
  if !connOk then connFail db else
  if cursorFaults fault then cursorFail db else
  withConn (
    match fault with
    | some (k, m) =>
        if k == 1 then driverErr m db
        else match db.rows.find? (fun r => r.id == task_id) with
             | none => (Resp.err 404 ("Task not found"), db)
             | some row => (Resp.ok row, db)
    | none =>
        match db.rows.find? (fun r => r.id == task_id) with
        | none => (Resp.err 404 ("Task not found"), db)
        | some row => (Resp.ok row, db))

/-- The SET clause of the UPDATE in `update_task`: title, description and
completed are replaced by the request body values.
Modelled from the spec: the schema (absent from src/) refreshes `updated_at`
to the statement time `t` on mutation. -/
def updRow (task : TaskCreate) (t : Nat) (r : Row) : Row :=
  { r with title := task.title, description := task.description,
           completed := task.completed, updated_at := t }

/-- The table contents after the UPDATE statement of `update_task`: every row
matching the WHERE clause is rewritten by `updRow`, the rest are kept. -/
def updatedRows (db : DB) (task_id : Nat) (task : TaskCreate) (t : Nat) :
    List Row :=
  db.rows.map (fun r => if r.id == task_id then updRow task t r else r)

/-- Embeds `update_task` (src/app/main.py lines 174-201, PUT /tasks/{id}).
Driver calls: 0 = conn.cursor, 1 = execute UPDATE, 2 = commit, 3 = execute
SELECT by id — call 3 runs only after the rowcount check passes, exactly as
in the source, so a fault there is reachable only for an existing id.
The UPDATE rewrites title, description and completed of every matching row;
`cursor.rowcount` is the number of rows matched by the WHERE clause; the
rowcount check runs after the commit, so a 404 answer still leaves the
committed (unchanged) table in place.
Modelled from the spec: the driver row count reports matched rows. -/
def update_task (connOk : Bool) (fault : Fault) (db : DB) (task_id : Nat)
    (task : TaskCreate) (t : Nat) : HResult Row :=
  if !connOk then connFail db else
  if cursorFaults fault then cursorFail db else
  withConn (
    let committed : DB := ⟨updatedRows db task_id task t, db.nextId⟩
    let rowcount : Nat := (db.rows.filter (fun r => r.id == task_id)).length
    let reread : Resp Row × DB :=
      match committed.rows.find? (fun r => r.id == task_id) with
      | some row => (Resp.ok row, committed)
      | none => (Resp.err 500 ("Response validation failed"), committed)
    match fault with
    | some (k, m) =>
        if k == 1 then driverErr m db
        else if k == 2 then driverErr m db
        else if rowcount == 0 then (Resp.err 404 ("Task not found"), committed)
        else if k == 3 then driverErr m committed
        else reread
    | none =>
        if rowcount == 0 then (Resp.err 404 ("Task not found"), committed)
        else reread)

/-- Embeds `delete_task` (src/app/main.py lines 204-223, DELETE /tasks/{id}).
Driver calls: 0 = conn.cursor, 1 = execute DELETE, 2 = commit.
`cursor.rowcount` is the number of rows deleted; the check runs after the
commit.  A success returns the confirmation message body. -/
def delete_task (connOk : Bool) (fault : Fault) (db : DB) (task_id : Nat) :
    HResult String :=
  if !connOk then connFail db else
  if cursorFaults fault then cursorFail db else
  withConn (
    let remaining : List Row := db.rows.filter (fun r => !(r.id == task_id))
    let committed : DB := ⟨remaining, db.nextId⟩
    let rowcount : Nat := (db.rows.filter (fun r => r.id == task_id)).length
    let afterCommit : Resp String × DB :=
      if rowcount == 0 then (Resp.err 404 ("Task not found"), committed)
      else (Resp.ok ("Task deleted successfully"), committed)
    match fault with
    | some (k, m) =>
        if k == 1 then driverErr m db
        else if k == 2 then driverErr m db
        else afterCommit
    | none => afterCommit)

/-- A JSON request body for POST /tasks/ and PUT /tasks/{id}, before the
pydantic schema layer runs: each field is absent (`none`), JSON null
(`some none`), or a typed value (`some (some v)`). -/
structure RawBody where
  title : Option (Option String)
  description : Option (Option String)
  completed : Option (Option Bool)
deriving DecidableEq

/-- Embeds pydantic validation of `TaskCreate` (src/app/main.py lines 10-17):
`title: str` is required and must be a string (absent or null is a 422
client error, any string — including the empty string — passes);
`description: Optional[str] = None` treats absent and null alike;
`completed: Optional[bool] = False` defaults an absent field to `False` and
keeps an explicit null as `None`.  Returns `none` when the schema layer
rejects the body before the handler runs. -/
def validateTaskCreate (r : RawBody) : Option TaskCreate :=
  match r.title with
  | some (some s) =>
      some { title := s
             , description :=
                 match r.description with
                 | some (some d) => some d
                 | _ => none
             , completed :=
                 match r.completed with
                 | none => some false
                 | some none => none
                 | some (some b) => some b }
  | _ => none

/-! Helper lemmas evaluating each handler on its exit paths. -/

/-- With a live connection and no driver fault, `create_task` on a well
formed database appends the new row, bumps the counter and returns the row
re-read by the SELECT on `lastrowid`. -/
theorem create_task_eval (db : DB) (task : TaskCreate) (t : Nat) (hwf : db.WF) :
    create_task true none db task t =
      ⟨Resp.ok (newRow db task t),
       ⟨db.rows ++ [newRow db task t], db.nextId + 1⟩, true, true⟩ := by
  have hnone : db.rows.find? (fun r => r.id == db.nextId) = none :=
    List.find?_eq_none.mpr (fun x hx => by
      have hlt := hwf x hx
      simp only [beq_iff_eq]
      omega)
  simp [create_task, withConn, cursorFaults, List.find?_append, hnone, newRow]

/-- The SELECT of `update_task` searches the committed rows: rewriting every
matching row first commutes with `find?` because `updRow` keeps the id. -/
theorem find?_updatedRows (db : DB) (i t : Nat) (task : TaskCreate) :
    (updatedRows db i task t).find? (fun r => r.id == i)
      = (db.rows.find? (fun r => r.id == i)).map
          (fun r => if r.id == i then updRow task t r else r) := by
  have hp : ((fun r : Row => r.id == i) ∘
        (fun r => if r.id == i then updRow task t r else r))
      = fun r : Row => r.id == i := by
    funext x
    by_cases h : (x.id == i) = true
    · simp [Function.comp, h, updRow]
    · simp [Function.comp, h]
  unfold updatedRows
  rw [List.find?_map, hp]

/-- The rowcount of an UPDATE or DELETE whose WHERE clause matched at least
one row is nonzero. -/
theorem filter_length_ne_zero {p : Row → Bool} {l : List Row}
    (hne : l.filter p ≠ []) : ((l.filter p).length == 0) = false := by
  rw [beq_eq_false_iff_ne]
  simpa [List.length_eq_zero] using hne

/-- An UPDATE whose WHERE clause matches no row rewrites nothing. -/
theorem updatedRows_of_no_match (db : DB) (i t : Nat) (task : TaskCreate)
    (hnil : db.rows.filter (fun x => x.id == i) = []) :
    updatedRows db i task t = db.rows := by
  have hall : ∀ x ∈ db.rows, ¬ (x.id == i) = true := by
    simpa using List.filter_eq_nil_iff.mp hnil
  unfold updatedRows
  have hid : ∀ x ∈ db.rows, (if x.id == i then updRow task t x else x) = id x := by
    intro x hx
    simp [hall x hx]
  rw [List.map_congr_left hid, List.map_id]

/-- With a live connection and no driver fault, `update_task` on an id that
the SELECT-before would find commits the rewritten rows and returns the
rewritten first match. -/
theorem update_task_found (db : DB) (i t : Nat) (task : TaskCreate) (r : Row)
    (hfind : db.rows.find? (fun x => x.id == i) = some r) :
    update_task true none db i task t =
      ⟨Resp.ok (updRow task t r),
       ⟨updatedRows db i task t, db.nextId⟩, true, true⟩ := by
  have hp := List.find?_some hfind
  have hmem := List.mem_of_find?_eq_some hfind
  have hne : db.rows.filter (fun x => x.id == i) ≠ [] :=
    List.ne_nil_of_mem (List.mem_filter.mpr ⟨hmem, hp⟩)
  have hcount : ((db.rows.filter (fun x => x.id == i)).length == 0) = false := by
    rw [beq_eq_false_iff_ne]
    simpa [List.length_eq_zero] using hne
  have hfind2 : (updatedRows db i task t).find? (fun x => x.id == i)
      = some (updRow task t r) := by
    rw [find?_updatedRows, hfind]
    simp only [Option.map]
    rw [if_pos hp]
  simp [update_task, withConn, cursorFaults, hcount, hfind2]

/-- With a live connection and no driver fault, `update_task` on an absent id
matches no row, commits an unchanged table and answers 404. -/
theorem update_task_notfound (db : DB) (i t : Nat) (task : TaskCreate)
    (hnone : db.rows.find? (fun x => x.id == i) = none) :
    update_task true none db i task t =
      ⟨Resp.err 404 ("Task not found"), db, true, true⟩ := by
  have hall := List.find?_eq_none.mp hnone
  have hnil : db.rows.filter (fun x => x.id == i) = [] :=
    List.filter_eq_nil_iff.mpr (by simpa using hall)
  have hmap := updatedRows_of_no_match db i t task hnil
  simp [update_task, withConn, cursorFaults, hnil, hmap]

/-- With a live connection and no driver fault, `delete_task` on an id with a
matching row removes every matching row and answers with the confirmation
message. -/
theorem delete_task_found (db : DB) (i : Nat)
    (hne : db.rows.filter (fun r => r.id == i) ≠ []) :
    delete_task true none db i =
      ⟨Resp.ok ("Task deleted successfully"),
       ⟨db.rows.filter (fun r => !(r.id == i)), db.nextId⟩, true, true⟩ := by
  have hcount : ((db.rows.filter (fun r => r.id == i)).length == 0) = false := by
    rw [beq_eq_false_iff_ne]
    simpa [List.length_eq_zero] using hne
  simp [delete_task, withConn, cursorFaults, hcount]

/-- With a live connection and no driver fault, `delete_task` on an absent id
deletes nothing and answers 404. -/
theorem delete_task_notfound (db : DB) (i : Nat)
    (hnil : db.rows.filter (fun r => r.id == i) = []) :
    delete_task true none db i =
      ⟨Resp.err 404 ("Task not found"), db, true, true⟩ := by
  have hall : ∀ x ∈ db.rows, ¬ (x.id == i) = true := by
    simpa using List.filter_eq_nil_iff.mp hnil
  have hkeep : db.rows.filter (fun r => !(r.id == i)) = db.rows :=
    List.filter_eq_self.mpr (fun a ha => by simp [hall a ha])
  simp [delete_task, withConn, cursorFaults, hnil, hkeep]

/-- With a live connection and no driver fault, `read_task` answers with the
first row found by the SELECT, or 404 when there is none. -/
theorem read_task_eval (db : DB) (i : Nat) :
    read_task true none db i =
      match db.rows.find? (fun r => r.id == i) with
      | none => ⟨Resp.err 404 ("Task not found"), db, true, true⟩
      | some row => ⟨Resp.ok row, db, true, true⟩ := by
  cases h : db.rows.find? (fun r => r.id == i) <;> simp [read_task, withConn, cursorFaults, h]

/-- The SELECT on `lastrowid` after the INSERT finds the appended row, since
a well formed table holds no row with the fresh AUTO_INCREMENT id. -/
theorem find?_append_newRow (db : DB) (task : TaskCreate) (t : Nat)
    (hwf : db.WF) :
    (db.rows ++ [newRow db task t]).find? (fun r => r.id == db.nextId)
      = some (newRow db task t) := by
  have hnone : db.rows.find? (fun r => r.id == db.nextId) = none :=
    List.find?_eq_none.mpr (fun x hx => by
      have hlt := hwf x hx
      simp only [beq_iff_eq]
      omega)
  simp [List.find?_append, hnone, newRow]

/-- When the SELECT-before finds a row, the SELECT after the UPDATE finds
that row rewritten. -/
theorem find?_updatedRows_found (db : DB) (i t : Nat) (task : TaskCreate)
    (r : Row) (hfind : db.rows.find? (fun x => x.id == i) = some r) :
    (updatedRows db i task t).find? (fun x => x.id == i)
      = some (updRow task t r) := by
  rw [find?_updatedRows, hfind]
  simp only [Option.map]
  rw [if_pos (List.find?_some hfind)]

/-- A 404 answer of `update_task` on a fault free run leaves the table as it
was: the committed UPDATE matched no row. -/
theorem update_task_nofault_404_db (db : DB) (i t : Nat) (task : TaskCreate)
    (h : (update_task true none db i task t).resp
        = Resp.err 404 ("Task not found")) :
    (update_task true none db i task t).db = db := by
  cases hf : db.rows.find? (fun x => x.id == i) with
  | none => rw [update_task_notfound db i t task hf]
  | some r =>
      rw [update_task_found db i t task r hf] at h
      exact absurd h (by simp)

/-- A 404 answer of `delete_task` on a fault free run leaves the table as it
was: the committed DELETE matched no row. -/
theorem delete_task_nofault_404_db (db : DB) (i : Nat)
    (h : (delete_task true none db i).resp
        = Resp.err 404 ("Task not found")) :
    (delete_task true none db i).db = db := by
  by_cases hnil : db.rows.filter (fun r => r.id == i) = []
  · rw [delete_task_notfound db i hnil]
  · rw [delete_task_found db i hnil] at h
    exact absurd h (by simp)

/-! Connection bookkeeping.  When `conn.cursor(...)` succeeds, the finally
block runs to completion and the connection is closed exactly when it was
acquired; the leak of the source is confined to the cursor-creation fault
(see the C5 theorem below). -/

theorem closed_when_cursor_ok (connOk : Bool) (fault : Fault) (db : DB)
    (i t : Nat) (task : TaskCreate) (hcf : cursorFaults fault = false) :
    ((create_task connOk fault db task t).closed = connOk)
    ∧ ((read_tasks connOk fault db).closed = connOk)
    ∧ ((read_task connOk fault db i).closed = connOk)
    ∧ ((update_task connOk fault db i task t).closed = connOk)
    ∧ ((delete_task connOk fault db i).closed = connOk) := by
  cases connOk
  · exact ⟨rfl, rfl, rfl, rfl, rfl⟩
  · refine ⟨?_, ?_, ?_, ?_, ?_⟩ <;>
      simp [create_task, read_tasks, read_task, update_task, delete_task,
        withConn, hcf]

/-! Claim theorems. -/

/-- C1: for every PUT /tasks/{id} request with a valid body, served by a
live connection with no driver fault, the handler answers 404 exactly when
no task with that id exists, and answers 200 with the updated task whenever
one exists. -/
theorem update_404_iff_absent (db : DB) (task_id : Nat) (task : TaskCreate)
    (t : Nat) :
    ((update_task true none db task_id task t).resp
        = Resp.err 404 ("Task not found")
      ↔ db.rows.find? (fun r => r.id == task_id) = none)
    ∧ ∀ r, db.rows.find? (fun r => r.id == task_id) = some r →
        (update_task true none db task_id task t).resp
          = Resp.ok (updRow task t r) := by
  constructor
  · constructor
    · intro h404
      cases hf : db.rows.find? (fun r => r.id == task_id) with
      | none => rfl
      | some r =>
          rw [update_task_found db task_id t task r hf] at h404
          exact absurd h404 (by simp)
    · intro hnone
      rw [update_task_notfound db task_id t task hnone]
  · intro r hf
    rw [update_task_found db task_id t task r hf]

/-- C1 witness: on a one-row table, PUT on the existing id 1 answers 200
with the fully replaced task. -/
theorem update_404_iff_absent_witness :
    (update_task true none ⟨[⟨1, "a", none, some false, 0, 0⟩], 2⟩ 1
        ⟨"b", some ("d"), some true⟩ 5).resp
      = Resp.ok ⟨1, "b", some ("d"), some true, 0, 5⟩ :=
  (update_404_iff_absent ⟨[⟨1, "a", none, some false, 0, 0⟩], 2⟩ 1
      ⟨"b", some ("d"), some true⟩ 5).2 ⟨1, "a", none, some false, 0, 0⟩ rfl

/-- C2: a successful PUT on an existing task stores and returns an
updated_at no smaller than the previous one (given the clock does not run
backwards), and the returned title, description and completed are exactly
the request body values — full replace, not merge. -/
theorem update_full_replace (db : DB) (task_id t : Nat) (task : TaskCreate)
    (r : Row) (hfind : db.rows.find? (fun x => x.id == task_id) = some r)
    (hclock : r.updated_at ≤ t) :
    ∃ u, (update_task true none db task_id task t).resp = Resp.ok u
      ∧ u.title = task.title ∧ u.description = task.description
      ∧ u.completed = task.completed
      ∧ r.updated_at ≤ u.updated_at
      ∧ (update_task true none db task_id task t).db.rows.find?
          (fun x => x.id == task_id) = some u := by
  refine ⟨updRow task t r, ?_, rfl, rfl, rfl, hclock, ?_⟩
  · rw [update_task_found db task_id t task r hfind]
  · rw [update_task_found db task_id t task r hfind]
    show (updatedRows db task_id task t).find? (fun x => x.id == task_id)
        = some (updRow task t r)
    rw [find?_updatedRows, hfind]
    simp only [Option.map]
    rw [if_pos (List.find?_some hfind)]

/-- C2 witness: updating the task with id 1 at clock 7 returns and stores
the replaced fields with updated_at 7 ≥ 3. -/
theorem update_full_replace_witness :
    ∃ u, (update_task true none ⟨[⟨1, "a", none, some false, 0, 3⟩], 2⟩ 1
        ⟨"b", none, some true⟩ 7).resp = Resp.ok u
      ∧ u.title = "b" ∧ u.description = none ∧ u.completed = some true
      ∧ 3 ≤ u.updated_at
      ∧ (update_task true none ⟨[⟨1, "a", none, some false, 0, 3⟩], 2⟩ 1
          ⟨"b", none, some true⟩ 7).db.rows.find? (fun x => x.id == 1)
          = some u :=
  update_full_replace ⟨[⟨1, "a", none, some false, 0, 3⟩], 2⟩ 1 7
    ⟨"b", none, some true⟩ ⟨1, "a", none, some false, 0, 3⟩ rfl (by decide)

/-- C3 counterexample: a body whose title is the empty string is accepted by
the schema layer — validateTaskCreate succeeds on it — so it is not rejected
before the handler runs, against the claim that an empty title is a client
error. -/
theorem empty_title_accepted :
    validateTaskCreate ⟨some (some ("")), none, none⟩
      = some ⟨"", none, some false⟩ := rfl

/-- C3 (amended): the schema layer rejects a create/update body exactly when
the title field is absent or JSON null; any string title, the empty string
included, passes to the handler. -/
theorem validate_rejects_iff_title_missing (r : RawBody) :
    validateTaskCreate r = none ↔ (r.title = none ∨ r.title = some none) := by
  rcases r with ⟨tl, d, c⟩
  rcases tl with _ | tl
  · simp [validateTaskCreate]
  · rcases tl with _ | s
    · simp [validateTaskCreate]
    · simp [validateTaskCreate]

/-- C3 witness: a body with no title field is rejected by the schema
layer. -/
theorem validate_rejects_iff_title_missing_witness :
    validateTaskCreate ⟨none, none, none⟩ = none ↔
      ((⟨none, none, none⟩ : RawBody).title = none
        ∨ (⟨none, none, none⟩ : RawBody).title = some none) :=
  validate_rejects_iff_title_missing ⟨none, none, none⟩

/-- C4: creating a task whose body holds only a title, against a live
connection with no driver fault on a well formed database, returns a task
with completed false, the freshly assigned (non-null) id, and created_at
equal to updated_at. -/
theorem create_buy_milk (db : DB) (t : Nat) (hwf : db.WF) :
    ∃ tc u,
      validateTaskCreate ⟨some (some ("Buy milk")), none, none⟩ = some tc
      ∧ (create_task true none db tc t).resp = Resp.ok u
      ∧ u.completed = some false ∧ u.id = db.nextId
      ∧ u.created_at = u.updated_at := by
  refine ⟨⟨"Buy milk", none, some false⟩,
    newRow db ⟨"Buy milk", none, some false⟩ t, rfl, ?_, rfl, rfl, rfl⟩
  rw [create_task_eval db _ t hwf]

/-- C4 witness: creating against the empty table at clock 7. -/
theorem create_buy_milk_witness :
    (DB.WF ⟨[], 1⟩)
    ∧ ∃ tc u,
      validateTaskCreate ⟨some (some ("Buy milk")), none, none⟩ = some tc
      ∧ (create_task true none ⟨[], 1⟩ tc 7).resp = Resp.ok u
      ∧ u.completed = some false ∧ u.id = (⟨[], 1⟩ : DB).nextId
      ∧ u.created_at = u.updated_at :=
  ⟨by decide, create_buy_milk ⟨[], 1⟩ 7 (by decide)⟩

/-- C5: evaluation of the code at the failing input — a driver `Error`
raised by `conn.cursor(...)`, the first driver call of every try block
(src/app/main.py lines 118, 143, 161, 181, 211).  Each handler acquires the
connection and the except clause catches the Error, but the finally block
evaluates `cursor.close()` with the local `cursor` never assigned, so the
UnboundLocalError aborts the finally block before `conn.close()`: the
connection is acquired yet never closed, against the claimed guaranteed
release (the claim holds on every other exit path, see
`closed_when_cursor_ok`). -/
theorem cursor_fault_leaks_connection :
    ((create_task true (some (0, "Lost connection")) ⟨[], 1⟩
        ⟨"a", none, some false⟩ 0).acquired = true
      ∧ (create_task true (some (0, "Lost connection")) ⟨[], 1⟩
        ⟨"a", none, some false⟩ 0).closed = false)
    ∧ ((read_tasks true (some (0, "Lost connection")) ⟨[], 1⟩).acquired = true
      ∧ (read_tasks true (some (0, "Lost connection")) ⟨[], 1⟩).closed = false)
    ∧ ((read_task true (some (0, "Lost connection")) ⟨[], 1⟩ 1).acquired = true
      ∧ (read_task true (some (0, "Lost connection")) ⟨[], 1⟩ 1).closed = false)
    ∧ ((update_task true (some (0, "Lost connection")) ⟨[], 1⟩ 1
        ⟨"a", none, some false⟩ 0).acquired = true
      ∧ (update_task true (some (0, "Lost connection")) ⟨[], 1⟩ 1
        ⟨"a", none, some false⟩ 0).closed = false)
    ∧ ((delete_task true (some (0, "Lost connection")) ⟨[], 1⟩ 1).acquired = true
      ∧ (delete_task true (some (0, "Lost connection")) ⟨[], 1⟩ 1).closed = false) :=
  ⟨⟨rfl, rfl⟩, ⟨rfl, rfl⟩, ⟨rfl, rfl⟩, ⟨rfl, rfl⟩, ⟨rfl, rfl⟩⟩

/-- C6: on every endpoint, failing to acquire a connection yields the whole
connFail result — 500 with the generic detail, nothing persisted, nothing
retried — and a driver error at any SQL statement (execute, commit, or the
re-read SELECT where one exists) yields exactly the single 500 whose detail
echoes the driver message, with the database left at the failure point: the
error is surfaced immediately, never retried or recovered.  The re-read
SELECT of PUT (call 3) runs only after the rowcount check, hence its
conjunct assumes an existing id. -/
theorem error_mapping (db : DB) (i t : Nat) (task : TaskCreate)
    (m : String) :
    (∀ fault, create_task false fault db task t
        = ⟨Resp.err 500 ("Database connection failed"), db, false, false⟩)
    ∧ (∀ fault, read_tasks false fault db
        = ⟨Resp.err 500 ("Database connection failed"), db, false, false⟩)
    ∧ (∀ fault, read_task false fault db i
        = ⟨Resp.err 500 ("Database connection failed"), db, false, false⟩)
    ∧ (∀ fault, update_task false fault db i task t
        = ⟨Resp.err 500 ("Database connection failed"), db, false, false⟩)
    ∧ (∀ fault, delete_task false fault db i
        = ⟨Resp.err 500 ("Database connection failed"), db, false, false⟩)
    ∧ (create_task true (some (1, m)) db task t
        = ⟨Resp.err 500 m, db, true, true⟩)
    ∧ (create_task true (some (2, m)) db task t
        = ⟨Resp.err 500 m, db, true, true⟩)
    ∧ (create_task true (some (3, m)) db task t
        = ⟨Resp.err 500 m,
           ⟨db.rows ++ [newRow db task t], db.nextId + 1⟩, true, true⟩)
    ∧ (read_tasks true (some (1, m)) db = ⟨Resp.err 500 m, db, true, true⟩)
    ∧ (read_task true (some (1, m)) db i = ⟨Resp.err 500 m, db, true, true⟩)
    ∧ (update_task true (some (1, m)) db i task t
        = ⟨Resp.err 500 m, db, true, true⟩)
    ∧ (update_task true (some (2, m)) db i task t
        = ⟨Resp.err 500 m, db, true, true⟩)
    ∧ (delete_task true (some (1, m)) db i = ⟨Resp.err 500 m, db, true, true⟩)
    ∧ (delete_task true (some (2, m)) db i = ⟨Resp.err 500 m, db, true, true⟩)
    ∧ ∀ r, db.rows.find? (fun x => x.id == i) = some r →
        update_task true (some (3, m)) db i task t
          = ⟨Resp.err 500 m, ⟨updatedRows db i task t, db.nextId⟩, true, true⟩ := by
  refine ⟨fun _ => rfl, fun _ => rfl, fun _ => rfl, fun _ => rfl, fun _ => rfl,
    rfl, rfl, rfl, rfl, rfl, rfl, rfl, rfl, rfl, ?_⟩
  intro r hfind
  have hcount := filter_length_ne_zero (List.ne_nil_of_mem
    (List.mem_filter.mpr
      ⟨List.mem_of_find?_eq_some hfind, List.find?_some hfind⟩))
  simp [update_task, withConn, driverErr, cursorFaults, hcount]

/-- C6 witness: a driver fault at the re-read SELECT of PUT on an existing
id echoes its message. -/
theorem error_mapping_witness :
    update_task true (some (3, "boom"))
        ⟨[⟨1, "a", none, some false, 0, 0⟩], 2⟩ 1 ⟨"b", none, some true⟩ 5
      = ⟨Resp.err 500 ("boom"),
         ⟨updatedRows ⟨[⟨1, "a", none, some false, 0, 0⟩], 2⟩ 1
            ⟨"b", none, some true⟩ 5, 2⟩, true, true⟩ :=
  (error_mapping ⟨[⟨1, "a", none, some false, 0, 0⟩], 2⟩ 1 5
      ⟨"b", none, some true⟩
      ("boom")).2.2.2.2.2.2.2.2.2.2.2.2.2.2 ⟨1, "a", none, some false, 0, 0⟩
    rfl

/-- C7: read-after-write round trip — the task object returned by a
successful POST (on a well formed table) or by a successful PUT is exactly
what GET /tasks/{id} then returns from the database state the write left
behind. -/
theorem read_after_write (db : DB) (task : TaskCreate) (t : Nat)
    (hwf : db.WF) :
    (∀ u, (create_task true none db task t).resp = Resp.ok u →
        (read_task true none (create_task true none db task t).db u.id).resp
          = Resp.ok u)
    ∧ ∀ i u, (update_task true none db i task t).resp = Resp.ok u →
        (read_task true none (update_task true none db i task t).db i).resp
          = Resp.ok u := by
  constructor
  · intro u h
    rw [create_task_eval db task t hwf] at h ⊢
    have h2 : Resp.ok (newRow db task t) = Resp.ok u := h
    injection h2 with h3
    subst h3
    rw [read_task_eval]
    have hid : (newRow db task t).id = db.nextId := rfl
    rw [hid]
    simp [find?_append_newRow db task t hwf]
  · intro i u h
    cases hf : db.rows.find? (fun x => x.id == i) with
    | none =>
        rw [update_task_notfound db i t task hf] at h
        exact absurd h (by simp)
    | some r =>
        rw [update_task_found db i t task r hf] at h ⊢
        have h2 : Resp.ok (updRow task t r) = Resp.ok u := h
        injection h2 with h3
        subst h3
        rw [read_task_eval]
        simp [find?_updatedRows_found db i t task r hf]

/-- C7 witness: create into the empty table at clock 3, then read the
returned id back. -/
theorem read_after_write_witness :
    (read_task true none
        (create_task true none ⟨[], 1⟩ ⟨"a", none, some false⟩ 3).db
        (⟨1, "a", none, some false, 3, 3⟩ : Row).id).resp
      = Resp.ok ⟨1, "a", none, some false, 3, 3⟩ :=
  (read_after_write ⟨[], 1⟩ ⟨"a", none, some false⟩ 3 (by decide)).1
    ⟨1, "a", none, some false, 3, 3⟩ rfl

/-- C8: after a successful DELETE — 200 with the confirmation message — a
GET of the same id answers 404, and the GET leaves the table unchanged, so
every later GET of that id answers 404 as well. -/
theorem delete_then_get_404 (db : DB) (i : Nat) (r : Row)
    (hmem : r ∈ db.rows) (hid : r.id = i) :
    (delete_task true none db i).resp = Resp.ok ("Task deleted successfully")
    ∧ (read_task true none (delete_task true none db i).db i).resp
        = Resp.err 404 ("Task not found")
    ∧ (read_task true none (delete_task true none db i).db i).db
        = (delete_task true none db i).db := by
  have hne : db.rows.filter (fun x => x.id == i) ≠ [] :=
    List.ne_nil_of_mem (List.mem_filter.mpr ⟨hmem, by simp [hid]⟩)
  have hgone : (db.rows.filter (fun x => !(x.id == i))).find?
      (fun x => x.id == i) = none :=
    List.find?_eq_none.mpr (fun x hx => by
      have hkeep := (List.mem_filter.mp hx).2
      simpa using hkeep)
  rw [delete_task_found db i hne]
  refine ⟨rfl, ?_, ?_⟩ <;> rw [read_task_eval] <;> simp [hgone]

/-- C8 witness: deleting the only row, then reading it back, answers 404. -/
theorem delete_then_get_404_witness :
    (delete_task true none ⟨[⟨1, "a", none, some false, 0, 0⟩], 2⟩ 1).resp
        = Resp.ok ("Task deleted successfully")
    ∧ (read_task true none
        (delete_task true none ⟨[⟨1, "a", none, some false, 0, 0⟩], 2⟩ 1).db
        1).resp = Resp.err 404 ("Task not found")
    ∧ (read_task true none
        (delete_task true none ⟨[⟨1, "a", none, some false, 0, 0⟩], 2⟩ 1).db
        1).db
      = (delete_task true none ⟨[⟨1, "a", none, some false, 0, 0⟩], 2⟩ 1).db :=
  delete_then_get_404 ⟨[⟨1, "a", none, some false, 0, 0⟩], 2⟩ 1
    ⟨1, "a", none, some false, 0, 0⟩ (by decide) rfl

/-- C9 counterexample: the schema layer accepts a body carrying an explicit
JSON null for completed, the task object the create handler returns has
completed null, not a boolean, and the row stored for the fresh id carries
the null as well — against the claimed response shape. -/
theorem null_completed_surfaced :
    ∃ tc u,
      validateTaskCreate ⟨some (some ("x")), none, some none⟩ = some tc
      ∧ (create_task true none ⟨[], 1⟩ tc 0).resp = Resp.ok u
      ∧ u.completed = none
      ∧ (create_task true none ⟨[], 1⟩ tc 0).db.rows.find?
          (fun r => r.id == 1) = some u :=
  ⟨⟨"x", none, none⟩, ⟨1, "x", none, none, 0, 0⟩, rfl, rfl, rfl, rfl⟩

/-- C9 (amended): both write handlers echo the body's completed value, so
completed is the boolean b in every POST /tasks/ response (on a well formed
table) and every PUT /tasks/{id} response whose accepted body carried
completed omitted (defaulted to false) or equal to b; only an explicit null
completed yields a null. -/
theorem completed_boolean_for_boolean_body (db : DB) (task : TaskCreate)
    (t : Nat) (b : Bool) (hwf : db.WF) (hc : task.completed = some b) :
    (∀ u, (create_task true none db task t).resp = Resp.ok u →
        u.completed = some b)
    ∧ ∀ i u, (update_task true none db i task t).resp = Resp.ok u →
        u.completed = some b := by
  constructor
  · intro u h
    rw [create_task_eval db task t hwf] at h
    have h2 : Resp.ok (newRow db task t) = Resp.ok u := h
    injection h2 with h3
    subst h3
    exact hc
  · intro i u h
    cases hf : db.rows.find? (fun x => x.id == i) with
    | none =>
        rw [update_task_notfound db i t task hf] at h
        exact absurd h (by simp)
    | some r =>
        rw [update_task_found db i t task r hf] at h
        have h2 : Resp.ok (updRow task t r) = Resp.ok u := h
        injection h2 with h3
        subst h3
        exact hc

/-- C9 witness: a body with boolean completed true is created and returned
with completed true, and a PUT with the same body answers with completed
true as well. -/
theorem completed_boolean_for_boolean_body_witness :
    ((create_task true none ⟨[], 1⟩ ⟨"x", none, some true⟩ 0).resp
        = Resp.ok ⟨1, "x", none, some true, 0, 0⟩
      ∧ (⟨1, "x", none, some true, 0, 0⟩ : Row).completed = some true)
    ∧ ((update_task true none ⟨[⟨1, "a", none, some false, 0, 0⟩], 2⟩ 1
          ⟨"x", none, some true⟩ 3).resp
        = Resp.ok ⟨1, "x", none, some true, 0, 3⟩
      ∧ (⟨1, "x", none, some true, 0, 3⟩ : Row).completed = some true) :=
  ⟨⟨rfl, (completed_boolean_for_boolean_body ⟨[], 1⟩ ⟨"x", none, some true⟩ 0
      true (by decide) rfl).1 ⟨1, "x", none, some true, 0, 0⟩ rfl⟩,
   ⟨rfl, (completed_boolean_for_boolean_body
        ⟨[⟨1, "a", none, some false, 0, 0⟩], 2⟩ ⟨"x", none, some true⟩ 3
      true (by decide) rfl).2 1 ⟨1, "x", none, some true, 0, 3⟩ rfl⟩⟩

/-- C10: a PUT or DELETE that answers 404 leaves the persisted tasks exactly
as they were — no task is created, modified or removed by a not-found
request — whatever the driver fault. -/
theorem not_found_preserves_db (fault : Fault) (db : DB) (i t : Nat)
    (task : TaskCreate) :
    ((update_task true fault db i task t).resp
          = Resp.err 404 ("Task not found") →
        (update_task true fault db i task t).db = db)
    ∧ ((delete_task true fault db i).resp
          = Resp.err 404 ("Task not found") →
        (delete_task true fault db i).db = db) := by
  constructor
  · intro h
    rcases fault with _ | ⟨k, m⟩
    · exact update_task_nofault_404_db db i t task h
    · rcases k with _ | _ | _ | _ | k
      · rfl
      · rfl
      · rfl
      · -- fault at the re-read SELECT, reached only when a row matched
        by_cases hnil : db.rows.filter (fun x => x.id == i) = []
        · have hmap := updatedRows_of_no_match db i t task hnil
          simp [update_task, withConn, driverErr, cursorFaults, hnil, hmap]
        · have hcount := filter_length_ne_zero hnil
          simp [update_task, withConn, driverErr, cursorFaults, hcount] at h
      · have heq : update_task true (some (k + 4, m)) db i task t
            = update_task true none db i task t := rfl
        rw [heq] at h
        rw [heq]
        exact update_task_nofault_404_db db i t task h
  · intro h
    rcases fault with _ | ⟨k, m⟩
    · exact delete_task_nofault_404_db db i h
    · rcases k with _ | _ | _ | k
      · rfl
      · rfl
      · rfl
      · have heq : delete_task true (some (k + 3, m)) db i
            = delete_task true none db i := rfl
        rw [heq] at h
        rw [heq]
        exact delete_task_nofault_404_db db i h

/-- C10 witness: a PUT on the empty table answers 404 and leaves the table
empty. -/
theorem not_found_preserves_db_witness :
    (update_task true none ⟨[], 1⟩ 1 ⟨"a", none, some false⟩ 0).db
      = ⟨[], 1⟩ :=
  (not_found_preserves_db none ⟨[], 1⟩ 1 0 ⟨"a", none, some false⟩).1 rfl

end TaskApi
